import Mathlib

/-!
Verification of the PDF-CSV repository: a shallow embedding of the
frontend application logic (`frontend/src/App.tsx`) and of the backend
tool-calling data agent as specified (the backend Python sources are not
part of the checked tree; those parts are modelled from the specification
and from the repository README, which documents the API payloads).
-/

set_option maxRecDepth 4096

/-- A scalar cell value of a dataset.  Modelled from the spec: the dataset
data model admits cell values of type integer, float, string, boolean or
null; floats are modelled as rationals, which is adequate for the claims
considered here (only equality and ordering of values are used). -/
inductive Scalar where
  | int (i : Int)
  | float (q : Rat)
  | str (s : String)
  | bool (b : Bool)
  | null
deriving DecidableEq, Repr

/-- A row: a mapping from column name to scalar value, in column order.
Modelled from the spec data model. -/
abbrev Row : Type := List (String × Scalar)

/-- A dataset: ordered columns and ordered rows.  Modelled from the spec
data model. -/
structure Dataset where
  columns : List String
  rows : List Row
deriving DecidableEq, Repr

/-- Generic first-occurrence deduplication by key, with an accumulator of
keys already seen.  Keeps the first row carrying each key. -/
def dedupByAux {α κ : Type} [DecidableEq κ] (key : α → κ) : List κ → List α → List α
  | _, [] => []
  | seen, r :: rs =>
    if key r ∈ seen then dedupByAux key seen rs
    else r :: dedupByAux key (key r :: seen) rs

/-- First-occurrence deduplication by key. -/
def dedupBy {α κ : Type} [DecidableEq κ] (key : α → κ) (l : List α) : List α :=
  dedupByAux key [] l

/-- The comparison key of a row for `dedupe`: the whole row when no column
subset is given, otherwise the row restricted to the given columns.
Modelled from the spec: duplicates are exact matches across the given
columns, or across all columns if the subset is omitted. -/
def rowKey (subset : Option (List String)) (r : Row) : List (String × Option Scalar) :=
  match subset with
  | none => r.map fun p => (p.1, some p.2)
  | some cols => cols.map fun c => (c, (r.find? fun p => p.1 = c).map (·.2))

/-- Modelled from the spec: `dedupe` removes rows that are exact duplicates
across the given columns (or all columns if omitted), keeping the first
occurrence. -/
def Dataset.dedupe (subset : Option (List String)) (d : Dataset) : Dataset :=
  { d with rows := dedupBy (rowKey subset) d.rows }

/-- A JSON value, used to model the HTTP payloads of the API and the
argument values of tool calls. -/
inductive Json where
  | null
  | bool (b : Bool)
  | int (i : Int)
  | str (s : String)
  | arr (items : List Json)
  | obj (fields : List (String × Json))

/-- The JSON encoding of a scalar cell value. -/
def Scalar.toJson : Scalar → Json
  | .int i => .int i
  | .float q => .str (toString q)
  | .str s => .str s
  | .bool b => .bool b
  | .null => .null

/-- The JSON encoding of a row as an object. -/
def rowToJson (r : Row) : Json :=
  .obj (r.map fun p => (p.1, p.2.toJson))

mutual

/-- A Python-style rendering of a JSON value, used for the action-log line
of a tool execution.  Modelled from the spec and from the README example
log lines (`Executing: clean_data with args [\x27drop_duplicates\x27]`). -/
def jsonRepr : Json → String
  | .null => "None"
  | .bool b => if b then "True" else "False"
  | .int i => toString i
  | .str s => "\x27" ++ s ++ "\x27"
  | .arr items => "[" ++ jsonReprList items ++ "]"
  | .obj fields => "\x7b" ++ jsonReprFields fields ++ "\x7d"

/-- Comma-separated rendering of a list of JSON values. -/
def jsonReprList : List Json → String
  | [] => ""
  | [x] => jsonRepr x
  | x :: xs => jsonRepr x ++ ", " ++ jsonReprList xs

/-- Comma-separated rendering of the fields of a JSON object. -/
def jsonReprFields : List (String × Json) → String
  | [] => ""
  | [(k, v)] => "\x27" ++ k ++ "\x27: " ++ jsonRepr v
  | (k, v) :: xs => "\x27" ++ k ++ "\x27: " ++ jsonRepr v ++ ", " ++ jsonReprFields xs

end

/-! ## Tool catalog, executor and artifact manager

Modelled from the spec: the backend Python sources are not part of the
checked tree, so the Tool Registry (§4.1), Tool Executor (§4.2), Agent
Loop (§4.3) and Artifact Manager (§4.4) are embedded from the
specification's wording and from the README's documented API payloads. -/

/-- The argument mapping of a tool call. -/
abbrev Args : Type := List (String × Json)

/-- A tool-call request: tool name plus argument mapping.  Modelled from
the spec data model. -/
structure ToolCall where
  tool : String
  args : Args

/-- The failure taxonomy of the executor.  Modelled from the spec error
handling design (§7). -/
inductive FailKind where
  | UnknownTool
  | InvalidArguments
  | ToolExecutionError
deriving DecidableEq, Repr

/-- The outcome of one tool call.  Modelled from the spec data model:
success flag, human-readable summary, optional structured payload,
optional artifact reference. -/
structure ToolResult where
  success : Bool
  summary : String
  failKind : Option FailKind
  payload : Option Json
  artifactId : Option Nat

/-- A failed tool result. -/
def ToolResult.fail (k : FailKind) (msg : String) : ToolResult :=
  ⟨false, msg, some k, none, none⟩

/-- A tool specification: name and required argument names.  Modelled from
the spec Tool Registry (§4.1 table). -/
structure ToolSpec where
  name : String
  required : List String
  description : String

/-- Modelled from the spec: the fixed, closed tool catalog of §4.1, with
each tool's required arguments as given in the table. -/
def toolCatalog : List ToolSpec :=
  [⟨"inspect_data", [], "View structure, columns, and sample rows"⟩,
   ⟨"clean_data", ["operations"], "Apply cleaning sub-operations in order"⟩,
   ⟨"dedupe", [], "Remove duplicate rows, keeping the first occurrence"⟩,
   ⟨"detect_outliers", ["column"], "Flag outliers in a numeric column by the IQR rule"⟩,
   ⟨"aggregate", ["group_by", "agg"], "Group by columns and aggregate"⟩,
   ⟨"pivot", ["index", "columns", "values", "agg"], "Create a pivot table"⟩,
   ⟨"plot", ["kind", "x"], "Render a chart from the current dataset"⟩,
   ⟨"export_csv", [], "Serialize the current dataset to CSV"⟩,
   ⟨"export_xlsx", [], "Serialize the current dataset to a workbook"⟩]

/-- Registry lookup by tool name.  Modelled from the spec (§4.1). -/
def lookupTool (t : String) : Option ToolSpec :=
  toolCatalog.find? fun sp => sp.name == t

/-- Whether an argument name is present in an argument mapping. -/
def argPresent (args : Args) (a : String) : Bool :=
  args.any fun p => p.1 == a

/-- The value bound to an argument name, if present. -/
def lookupArg (args : Args) (a : String) : Option Json :=
  (args.find? fun p => p.1 == a).map (·.2)

/-- The first required argument of the spec missing from the mapping. -/
def missingRequired (sp : ToolSpec) (args : Args) : Option String :=
  sp.required.find? fun a => !(argPresent args a)

/-- Whether the kind argument of a plot call is the string `histogram`. -/
def plotKindIsHistogram (args : Args) : Bool :=
  match lookupArg args "kind" with
  | some (.str s) => s == "histogram"
  | _ => false

/-- Argument validation.  Modelled from the spec: every required argument
must be present; for `plot`, `y` is additionally required unless the kind
is `histogram`.  Returns the offending field on failure. -/
def validateArgs (sp : ToolSpec) (args : Args) : Option String :=
  match missingRequired sp args with
  | some a => some a
  | none =>
    if sp.name == "plot" && !(argPresent args "y") && !(plotKindIsHistogram args) then
      some "y"
    else
      none

/-- The string content of a JSON value, when it is a string. -/
def Json.asString : Json → Option String
  | .str s => some s
  | _ => none

/-- The list of strings held by a JSON array of strings. -/
def Json.asStringList : Json → Option (List String)
  | .arr items => items.mapM Json.asString
  | _ => none

/-- The numeric content of a scalar, when it is numeric. -/
def Scalar.asRat : Scalar → Option Rat
  | .int i => some (i : Rat)
  | .float q => some q
  | _ => none

/-- A plain-text rendering of a scalar, used for CSV cells and pivot
column names. -/
def Scalar.text : Scalar → String
  | .int i => toString i
  | .float q => toString q
  | .str s => s
  | .bool b => if b then "True" else "False"
  | .null => ""

/-- The value of a row at a column, when the column is present. -/
def rowGet (r : Row) (c : String) : Option Scalar :=
  (r.find? fun p => p.1 == c).map (·.2)

/-- The values of a dataset column, row by row. -/
def columnValues (d : Dataset) (c : String) : List Scalar :=
  d.rows.filterMap fun r => rowGet r c

/-- Apply a function to every cell of a dataset. -/
def Dataset.mapCells (f : Scalar → Scalar) (d : Dataset) : Dataset :=
  { d with rows := d.rows.map fun r => r.map fun p => (p.1, f p.2) }

/-- Modelled from the spec: `drop_missing` keeps only rows with no null
cell. -/
def Dataset.dropMissing (d : Dataset) : Dataset :=
  { d with rows := d.rows.filter fun r => r.all fun p => !(p.2 == Scalar.null) }

/-- Modelled from the spec: `fill_missing` replaces null cells; the fill
value (the empty string) is a modelling choice, the spec does not fix it. -/
def Dataset.fillMissing (d : Dataset) : Dataset :=
  d.mapCells fun v => if v == Scalar.null then Scalar.str "" else v

/-- Modelled from the spec: `strip_whitespace` trims string cells. -/
def Dataset.stripWhitespace (d : Dataset) : Dataset :=
  d.mapCells fun v => match v with | .str s => .str s.trim | v => v

/-- Modelled from the spec: `normalize_types` re-types string cells that
read as integers or booleans. -/
def Dataset.normalizeTypes (d : Dataset) : Dataset :=
  d.mapCells fun v =>
    match v with
    | .str s =>
      match s.toInt? with
      | some i => .int i
      | none => if s == "true" then .bool true else if s == "false" then .bool false else .str s
    | v => v

/-- One `clean_data` sub-operation.  Modelled from the spec (§4.1). -/
def applyCleanOp (d : Dataset) (op : String) : Except (FailKind × String) Dataset :=
  if op == "drop_duplicates" then .ok (d.dedupe none)
  else if op == "fill_missing" then .ok d.fillMissing
  else if op == "drop_missing" then .ok d.dropMissing
  else if op == "strip_whitespace" then .ok d.stripWhitespace
  else if op == "normalize_types" then .ok d.normalizeTypes
  else .error (.InvalidArguments, "Unknown clean operation: " ++ op)

/-- Insertion into a list sorted by a boolean order. -/
def insertBy {α : Type} (le : α → α → Bool) (x : α) : List α → List α
  | [] => [x]
  | y :: ys => if le x y then x :: y :: ys else y :: insertBy le x ys

/-- Insertion sort by a boolean order. -/
def sortBy {α : Type} (le : α → α → Bool) (l : List α) : List α :=
  l.foldr (insertBy le) []

/-- An ordering of scalars used for pivot row/column sorting: nulls, then
booleans, then numbers (compared numerically across int and float), then
strings. -/
def Scalar.rank : Scalar → Nat
  | .null => 0
  | .bool _ => 1
  | .int _ => 2
  | .float _ => 2
  | .str _ => 3

/-- Boolean order on scalars. -/
def Scalar.le (a b : Scalar) : Bool :=
  if a.rank ≠ b.rank then a.rank ≤ b.rank
  else
    match a, b with
    | .bool x, .bool y => !x || y
    | .str x, .str y => x ≤ y
    | a, b =>
      match a.asRat, b.asRat with
      | some x, some y => x ≤ y
      | _, _ => true

/-- Linear-interpolation quantile of a sorted list of rationals.
Modelled from the spec: Q1/Q3 are computed via linear interpolation. -/
def quantileSorted (v : List Rat) (q : Rat) : Rat :=
  match v with
  | [] => 0
  | x :: _ =>
    let n := v.length
    let pos : Rat := q * ((n : Rat) - 1)
    let i : Nat := pos.floor.toNat
    let frac : Rat := pos - (i : Rat)
    let a := v.getD i x
    let b := v.getD (i + 1) a
    a + frac * (b - a)

/-- The outcome of a successful tool handler: the (possibly replaced)
dataset, an optional artifact to register (filename, media type, content),
a summary line and an optional payload. -/
structure HandlerOut where
  dataset : Dataset
  artifact : Option (String × String × String)
  summary : String
  payload : Option Json

/-- An unchanged-dataset handler outcome. -/
def HandlerOut.view (d : Dataset) (s : String) (p : Option Json) : HandlerOut :=
  ⟨d, none, s, p⟩

/-- The inferred type name of a column: that of its first non-null value.
Modelled from the spec (`inspect_data` returns inferred types). -/
def inferType (d : Dataset) (c : String) : String :=
  match (columnValues d c).find? fun v => !(v == Scalar.null) with
  | some (.int _) => "integer"
  | some (.float _) => "float"
  | some (.str _) => "string"
  | some (.bool _) => "boolean"
  | _ => "null"

/-- Modelled from the spec: `inspect_data` returns column names, inferred
types, row count and the first 5 rows; no mutation. -/
def inspectHandler (d : Dataset) : HandlerOut :=
  .view d
    ("Inspected dataset: " ++ toString d.rows.length ++ " rows, "
      ++ toString d.columns.length ++ " columns")
    (some (.obj
      [("columns", .arr (d.columns.map .str)),
       ("types", .arr (d.columns.map fun c => .str (inferType d c))),
       ("row_count", .int d.rows.length),
       ("sample_rows", .arr ((d.rows.take 5).map rowToJson))]))

/-- Modelled from the spec: `clean_data` applies the requested
sub-operations in order; if one fails the whole call fails and no partial
result is committed (the executor commits the dataset only on success). -/
def cleanHandler (d : Dataset) (args : Args) : Except (FailKind × String) HandlerOut := do
  match (lookupArg args "operations").bind Json.asStringList with
  | none => .error (.InvalidArguments, "operations must be a list of strings")
  | some ops => do
    let d' ← ops.foldlM applyCleanOp d
    .ok ⟨d', none, "Cleaned data with operations " ++ jsonRepr (.arr (ops.map .str)), none⟩

/-- Modelled from the spec: `dedupe` with an optional column subset. -/
def dedupeHandler (d : Dataset) (args : Args) : Except (FailKind × String) HandlerOut :=
  match lookupArg args "columns" with
  | none =>
    let d' := d.dedupe none
    .ok ⟨d', none,
      "Removed " ++ toString (d.rows.length - d'.rows.length) ++ " duplicate rows", none⟩
  | some j =>
    match j.asStringList with
    | none => .error (.InvalidArguments, "columns must be a list of strings")
    | some cols =>
      let d' := d.dedupe (some cols)
      .ok ⟨d', none,
        "Removed " ++ toString (d.rows.length - d'.rows.length) ++ " duplicate rows", none⟩

/-- Modelled from the spec: `detect_outliers` flags, by row index, the
values outside [Q1 − 1.5·IQR, Q3 + 1.5·IQR] of a numeric column. -/
def outliersHandler (d : Dataset) (args : Args) : Except (FailKind × String) HandlerOut :=
  match (lookupArg args "column").bind Json.asString with
  | none => .error (.InvalidArguments, "column must be a string")
  | some c =>
    if !(d.columns.contains c) then
      .error (.InvalidArguments, "Unknown column: " ++ c)
    else
      match (columnValues d c).mapM Scalar.asRat with
      | none => .error (.ToolExecutionError, "Column is not numeric: " ++ c)
      | some vals =>
        let sorted := sortBy (fun a b => a ≤ b) vals
        let q1 := quantileSorted sorted (1 / 4)
        let q3 := quantileSorted sorted (3 / 4)
        let iqr := q3 - q1
        let lo := q1 - 3 / 2 * iqr
        let hi := q3 + 3 / 2 * iqr
        let flagged := (vals.enum.filter fun p => p.2 < lo || hi < p.2)
        .ok (.view d
          ("Found " ++ toString flagged.length ++ " outliers in column " ++ c)
          (some (.obj
            [("indices", .arr (flagged.map fun p => .int p.1)),
             ("values", .arr (flagged.map fun p => .str (toString p.2)))])))

/-- One aggregation function over the numeric values of a column group.
Modelled from the spec: sum, mean, count, min, max. -/
def aggValue (fn : String) (vals : List Scalar) : Except (FailKind × String) Scalar :=
  if fn == "count" then .ok (.int vals.length)
  else
    match vals.mapM Scalar.asRat with
    | none => .error (.ToolExecutionError, "Aggregation column is not numeric")
    | some [] => .error (.ToolExecutionError, "Empty aggregation group")
    | some (x :: xs) =>
      if fn == "sum" then .ok (.float (xs.foldl (· + ·) x))
      else if fn == "mean" then .ok (.float ((xs.foldl (· + ·) x) / ((xs.length + 1 : Nat) : Rat)))
      else if fn == "min" then .ok (.float (xs.foldl min x))
      else if fn == "max" then .ok (.float (xs.foldl max x))
      else .error (.InvalidArguments, "Unknown aggregation function: " ++ fn)

/-- The group key of a row: its values at the group-by columns. -/
def groupKey (cols : List String) (r : Row) : List (Option Scalar) :=
  cols.map fun c => rowGet r c

/-- The agg-argument mapping as column/function string pairs. -/
def aggPairs : Json → Option (List (String × String))
  | .obj fields => fields.mapM fun p => (p.2.asString).map fun f => (p.1, f)
  | _ => none

/-- Modelled from the spec: `aggregate` replaces the dataset with one row
per distinct group key, in first-seen order; unmapped columns are
dropped; an empty dataset is a validation failure. -/
def aggregateHandler (d : Dataset) (args : Args) : Except (FailKind × String) HandlerOut :=
  match (lookupArg args "group_by").bind Json.asStringList,
        (lookupArg args "agg").bind aggPairs with
  | none, _ => .error (.InvalidArguments, "group_by must be a list of strings")
  | _, none => .error (.InvalidArguments, "agg must map columns to functions")
  | some gb, some pairs =>
    if d.rows.isEmpty then
      .error (.InvalidArguments, "Cannot aggregate an empty dataset")
    else do
      let keys := dedupBy id (d.rows.map (groupKey gb))
      let rows ← keys.mapM fun k => do
        let members := d.rows.filter fun r => groupKey gb r == k
        let aggCells ← pairs.mapM fun p => do
          let v ← aggValue p.2 (members.filterMap fun r => rowGet r p.1)
          pure (p.1, v)
        pure ((gb.zip (k.map fun o => o.getD Scalar.null)) ++ aggCells)
      .ok ⟨⟨gb ++ pairs.map (·.1), rows⟩, none,
        "Aggregated into " ++ toString rows.length ++ " groups", none⟩

/-- Modelled from the spec: `pivot` replaces the dataset; rows are the
distinct index values sorted ascending, columns the distinct pivot-column
values sorted ascending prefixed with the values column, cells the
aggregated values, missing combinations null; an empty dataset is a
validation failure. -/
def pivotHandler (d : Dataset) (args : Args) : Except (FailKind × String) HandlerOut :=
  match (lookupArg args "index").bind Json.asString,
        (lookupArg args "columns").bind Json.asString,
        (lookupArg args "values").bind Json.asString,
        (lookupArg args "agg").bind Json.asString with
  | some idx, some cols, some vals, some fn =>
    if d.rows.isEmpty then
      .error (.InvalidArguments, "Cannot pivot an empty dataset")
    else if !(d.columns.contains idx && d.columns.contains cols && d.columns.contains vals) then
      .error (.InvalidArguments, "Unknown column in pivot arguments")
    else do
      let idxVals := sortBy Scalar.le (dedupBy id (columnValues d idx))
      let colVals := sortBy Scalar.le (dedupBy id (columnValues d cols))
      let rows ← idxVals.mapM fun iv => do
        let cells ← colVals.mapM fun cv => do
          let members := d.rows.filter fun r =>
            rowGet r idx == some iv && rowGet r cols == some cv
          if members.isEmpty then
            pure (vals ++ "_" ++ cv.text, Scalar.null)
          else do
            let v ← aggValue fn (members.filterMap fun r => rowGet r vals)
            pure (vals ++ "_" ++ cv.text, v)
        pure ((idx, iv) :: cells)
      .ok ⟨⟨idx :: colVals.map fun cv => vals ++ "_" ++ cv.text, rows⟩, none,
        "Pivoted into " ++ toString rows.length ++ " rows", none⟩
  | _, _, _, _ => .error (.InvalidArguments, "index, columns, values and agg must be strings")

/-- The CSV serialization of a dataset: a header line of column names and
one comma-separated line per row. -/
def datasetToCsv (d : Dataset) : String :=
  String.intercalate "\n"
    (String.intercalate "," d.columns
      :: d.rows.map fun r =>
        String.intercalate "," (d.columns.map fun c => ((rowGet r c).getD Scalar.null).text))

/-- Modelled from the spec: `plot` validates its kind and columns and
registers a PNG artifact; the image bytes themselves are out of scope
(the spec's non-goals exclude pixel-exact rendering), so the content is a
textual description of the chart. -/
def plotHandler (d : Dataset) (args : Args) : Except (FailKind × String) HandlerOut :=
  match (lookupArg args "kind").bind Json.asString,
        (lookupArg args "x").bind Json.asString with
  | some kind, some x =>
    if !(["bar", "line", "scatter", "histogram"].contains kind) then
      .error (.InvalidArguments, "Unknown plot kind: " ++ kind)
    else if !(d.columns.contains x) then
      .error (.InvalidArguments, "Unknown column: " ++ x)
    else
      .ok ⟨d, some ("chart.png", "image/png", "plot:" ++ kind ++ ":" ++ x),
        "Created " ++ kind ++ " chart", none⟩
  | _, _ => .error (.InvalidArguments, "kind and x must be strings")

/-- Modelled from the spec: `export_csv` serializes the current dataset to
CSV and registers it as an artifact; the filename is optional. -/
def exportCsvHandler (d : Dataset) (args : Args) : HandlerOut :=
  let fn := ((lookupArg args "filename").bind Json.asString).getD "export.csv"
  ⟨d, some (fn, "text/csv", datasetToCsv d), "Exported data to " ++ fn, none⟩

/-- Modelled from the spec: `export_xlsx` serializes the current dataset
to a workbook and registers it as an artifact; the binary workbook format
is out of scope, so the content is the tabular text. -/
def exportXlsxHandler (d : Dataset) (args : Args) : HandlerOut :=
  let fn := ((lookupArg args "filename").bind Json.asString).getD "export.xlsx"
  ⟨d, some (fn, "application/vnd.openxmlformats-officedocument.spreadsheetml.sheet",
      "xlsx:" ++ datasetToCsv d),
    "Exported data to " ++ fn, none⟩

/-- Handler dispatch by tool name.  Modelled from the spec Tool Registry:
the registry maps each catalog name to its handler. -/
def runHandler (t : String) (d : Dataset) (args : Args) :
    Except (FailKind × String) HandlerOut :=
  if t == "inspect_data" then .ok (inspectHandler d)
  else if t == "clean_data" then cleanHandler d args
  else if t == "dedupe" then dedupeHandler d args
  else if t == "detect_outliers" then outliersHandler d args
  else if t == "aggregate" then aggregateHandler d args
  else if t == "pivot" then pivotHandler d args
  else if t == "plot" then plotHandler d args
  else if t == "export_csv" then .ok (exportCsvHandler d args)
  else if t == "export_xlsx" then .ok (exportXlsxHandler d args)
  else .error (.ToolExecutionError, "No handler for tool: " ++ t)

/-- An artifact: identifier, filename, media type and content.  Modelled
from the spec data model. -/
structure Artifact where
  id : Nat
  filename : String
  mime : String
  content : String
deriving DecidableEq, Repr

/-- The artifact store of the Artifact Manager: the artifacts created so
far and the next identifier (monotonic, hence collision-free within a
process lifetime).  Modelled from the spec (§4.4). -/
structure ArtifactStore where
  items : List Artifact
  nextId : Nat
deriving DecidableEq, Repr

/-- Modelled from the spec: `create(kind, filename, content)` registers a
new artifact under a fresh identifier and never touches existing ones. -/
def ArtifactStore.create (st : ArtifactStore) (fn mime content : String) :
    Nat × ArtifactStore :=
  (st.nextId, ⟨st.items ++ [⟨st.nextId, fn, mime, content⟩], st.nextId + 1⟩)

/-- Modelled from the spec: `get(artifact_id)` retrieves an artifact. -/
def ArtifactStore.get (st : ArtifactStore) (i : Nat) : Option Artifact :=
  st.items.find? fun a => a.id == i

/-- Well-formedness of the artifact store: every stored identifier is
below the next one. -/
def ArtifactStore.WF (st : ArtifactStore) : Prop :=
  ∀ a ∈ st.items, a.id < st.nextId

/-- The state a tool call executes against: the dataset of the current
file, the artifact store and the action log of the turn. -/
structure ExecState where
  dataset : Dataset
  artifacts : ArtifactStore
  actionLog : List String

/-- The action-log line announcing a tool execution.  Modelled from the
README examples: `Executing: inspect_data` (no arguments) and
`Executing: clean_data with args [...]` (with arguments). -/
def execLine (c : ToolCall) : String :=
  if c.args.isEmpty then "Executing: " ++ c.tool
  else "Executing: " ++ c.tool ++ " with args " ++ jsonRepr (.obj c.args)

/-- The action-log line form the spec describes for every execution:
`Executing: \x7btool\x7d with args \x7bargs\x7d`. -/
def specClaimedLine (c : ToolCall) : String :=
  "Executing: " ++ c.tool ++ " with args " ++ jsonRepr (.obj c.args)

/-- The Tool Executor.  Modelled from the spec (§4.2): append the
action-log line, resolve the tool (unknown name fails with `UnknownTool`),
validate arguments (failure names the offending field, `InvalidArguments`),
run the handler inside a failure boundary (handler failures become failed
results, never exceptions), and commit side effects (dataset mutation,
artifact creation) only on success. -/
def execute (c : ToolCall) (s : ExecState) : ToolResult × ExecState :=
  let s0 : ExecState := { s with actionLog := s.actionLog ++ [execLine c] }
  match lookupTool c.tool with
  | none => (ToolResult.fail .UnknownTool ("Unknown tool: " ++ c.tool), s0)
  | some sp =>
    match validateArgs sp c.args with
    | some bad =>
      (ToolResult.fail .InvalidArguments ("Missing or invalid argument: " ++ bad), s0)
    | none =>
      match runHandler c.tool s.dataset c.args with
      | .error (k, msg) => (ToolResult.fail k msg, s0)
      | .ok out =>
        match out.artifact with
        | none =>
          (⟨true, out.summary, none, out.payload, none⟩, { s0 with dataset := out.dataset })
        | some (fn, mime, content) =>
          let created := s0.artifacts.create fn mime content
          (⟨true, out.summary, none, out.payload, some created.1⟩,
            { s0 with dataset := out.dataset, artifacts := created.2 })

/-- One reply of the LLM collaborator: a final text or a batch of tool
calls.  Modelled from the spec boundary (§6). -/
inductive LLMReply where
  | final (text : String)
  | toolCalls (batch : List ToolCall)

/-- Sequential execution of one batch of tool calls, each seeing the
previous call's effects.  Modelled from the spec (§4.2). -/
def execBatch (batch : List ToolCall) (s : ExecState) : ExecState :=
  batch.foldl (fun s c => (execute c s).2) s

/-- The hard step budget of the Agent Loop.  Modelled from the spec
(§4.3, "e.g., 8 iterations"). -/
def stepBudget : Nat := 8

/-- The Agent Loop turn.  Modelled from the spec state machine (§4.3):
alternate between asking the LLM collaborator (here an oracle list of
replies) and executing tool batches, until a final text, an exhausted
oracle (collaborator error) or an exhausted step budget; each termination
still returns a response. -/
def runTurn (oracle : List LLMReply) (budget : Nat) (s : ExecState) : String × ExecState :=
  match budget, oracle with
  | 0, _ => ("Step budget exceeded; stopping with a best-effort summary.", s)
  | _ + 1, [] => ("The model did not produce a final answer.", s)
  | _ + 1, .final text :: _ => (text, s)
  | b + 1, .toolCalls batch :: rest => runTurn rest b (execBatch batch s)

/-! ## Transport boundary (modelled from the spec §6 and the README) -/

/-- A request-level error of the transport boundary.  Modelled from the
spec: a bad file id is rejected as `NotFound`; a failed extraction rejects
the upload. -/
inductive ApiError where
  | NotFound
  | ExtractionFailed (msg : String)
deriving DecidableEq, Repr

/-- The server's process-memory state: one dataset per file id, plus the
artifact store.  Modelled from the spec data model. -/
structure ServerState where
  datasets : List (String × Dataset)
  artifacts : ArtifactStore

/-- The dataset stored under a file id, if any. -/
def lookupDataset (fid : String) (st : ServerState) : Option Dataset :=
  (st.datasets.find? fun p => p.1 == fid).map (·.2)

/-- The upload boundary.  Modelled from the spec (§6) and the README
(`POST /api/upload`): invoke extraction, store the resulting dataset under
the new file id, and answer with the documented JSON object
`file_id`, `filename`, `csv_path`, `message`. -/
def upload (filename : String) (extracted : Except String Dataset) (newId : String)
    (st : ServerState) : Except ApiError (List (String × Json) × ServerState) :=
  match extracted with
  | .error e => .error (.ExtractionFailed e)
  | .ok d =>
    .ok ([("file_id", .str newId),
          ("filename", .str filename),
          ("csv_path", .str (newId ++ ".csv")),
          ("message", .str ("Successfully extracted tables from " ++ filename))],
         { st with datasets := st.datasets ++ [(newId, d)] })

/-- The preview boundary.  Modelled from the spec (§6): for a known file
id, the columns, the first 10 rows, and the row and column counts; for an
unknown file id, `NotFound`. -/
def preview (fid : String) (st : ServerState) : Except ApiError (List (String × Json)) :=
  match lookupDataset fid st with
  | none => .error .NotFound
  | some d =>
    .ok [("columns", .arr (d.columns.map .str)),
         ("rows", .arr ((d.rows.take 10).map rowToJson)),
         ("total_rows", .int d.rows.length),
         ("total_columns", .int d.columns.length)]

/-- The JSON object describing one produced artifact in a chat response.
Modelled from the README (`files` entries carry `file_id`, `filename`,
`type`). -/
def fileInfoJson (a : Artifact) : Json :=
  .obj [("file_id", .str (toString a.id)),
        ("filename", .str a.filename),
        ("type", .str a.mime)]

/-- The chat boundary.  Modelled from the spec (§6) and the README
(`POST /api/chat`): for a known file id, run one Agent Loop turn (the
user's message drives the LLM collaborator, which is modelled by the
oracle of replies) and answer with `response`, `files` (the artifacts
produced during the turn) and `action_log`; the mutated dataset replaces
the stored one. -/
def chat (_message fid : String) (oracle : List LLMReply) (st : ServerState) :
    Except ApiError (List (String × Json) × ServerState) :=
  match lookupDataset fid st with
  | none => .error .NotFound
  | some d =>
    let r := runTurn oracle stepBudget ⟨d, st.artifacts, []⟩
    let newArts := r.2.artifacts.items.drop st.artifacts.items.length
    .ok ([("response", .str r.1),
          ("files", .arr (newArts.map fileInfoJson)),
          ("action_log", .arr (r.2.actionLog.map .str))],
         ⟨st.datasets.map fun p => if p.1 == fid then (p.1, r.2.dataset) else p,
          r.2.artifacts⟩)

/-! ## Frontend application logic (from `frontend/src/App.tsx`) -/

/-- The upload response consumed by the client
(`interface UploadResponse`, App.tsx lines 13-18). -/
structure UploadResponse where
  file_id : String
  filename : String
  csv_path : String
  message : String
deriving DecidableEq, Repr

/-- A produced file shown in the chat (`interface FileInfo`,
App.tsx lines 27-31). -/
structure FileInfo where
  file_id : String
  filename : String
  type : String
deriving DecidableEq, Repr

/-- The role of a chat message (App.tsx line 21). -/
inductive Role where
  | user
  | assistant
deriving DecidableEq, Repr

/-- A chat message of the client (`interface ChatMessage`,
App.tsx lines 20-25); `files` and `action_log` are optional. -/
structure ChatMessage where
  role : Role
  content : String
  files : Option (List FileInfo)
  action_log : Option (List String)
deriving DecidableEq, Repr

/-- The preview payload consumed by the client
(`interface PreviewData`, App.tsx lines 33-38). -/
structure PreviewData where
  columns : List String
  rows : List (List (String × Json))
  total_rows : Int
  total_columns : Int

/-- The React state of the `App` component: the nine `useState` hooks of
App.tsx lines 41-49, in order. -/
structure AppState where
  fileId : Option String
  filename : Option String
  uploadMessage : Option String
  isUploading : Bool
  error : Option String
  messages : List ChatMessage
  inputMessage : String
  isSending : Bool
  previewData : Option PreviewData

/-- The initial React state (the `useState` initial values of
App.tsx lines 41-49). -/
def initialAppState : AppState :=
  ⟨none, none, none, false, none, [], "", false, none⟩

/-- JS `inputMessage.trim()` is the empty string exactly when every
character of the input is whitespace; this models the falsy-guard
`!inputMessage.trim()` of App.tsx line 98. -/
def allWhitespace (s : String) : Bool := s.data.all Char.isWhitespace

/-- JS `file.name.toLowerCase().endsWith(\x27.pdf\x27)` of App.tsx
line 56, modelled over the character list. -/
def isPdfName (name : String) : Bool :=
  (name.data.map Char.toLower).reverse.take 4 == ".pdf".data.reverse

/-- The observable outcome of the `/api/chat` fetch in
`handleSendMessage`: a failure (a non-ok response whose `detail`, or a
thrown error message, becomes the error string) or a success carrying the
`response`, `files` and `action_log` fields of the body, the latter two
possibly absent. -/
inductive ChatFetchOutcome where
  | failure (errMsg : String)
  | success (response : String) (files : Option (List FileInfo))
      (action_log : Option (List String))

/-- `handleSendMessage` (App.tsx lines 97-141) as a state transition; the
boolean reports whether the chat request was issued.  Guard: empty trimmed
input, no loaded file, or a send in flight returns unchanged.  Otherwise
the user message is appended, the input cleared and the error reset; a
failure sets the error, a success appends the assistant message with
`files` and `action_log` defaulted to empty lists when absent. -/
def handleSendMessage (s : AppState) (o : ChatFetchOutcome) : AppState × Bool :=
  if allWhitespace s.inputMessage = true ∨ s.fileId = none ∨ s.isSending = true then
    (s, false)
  else
    let s1 := { s with
      messages := s.messages ++ [(⟨.user, s.inputMessage, none, none⟩ : ChatMessage)]
      inputMessage := ""
      isSending := true
      error := none }
    match o with
    | .failure e => ({ s1 with error := some e, isSending := false }, true)
    | .success r f a =>
      ({ s1 with
          messages := s1.messages ++ [(⟨.assistant, r, some (f.getD []), some (a.getD [])⟩ : ChatMessage)],
          isSending := false }, true)

/-- The file chosen in the file input; only its name is inspected. -/
structure SelectedFile where
  name : String
deriving DecidableEq, Repr

/-- The observable outcome of the `/api/upload` fetch (and the follow-up
preview fetch) in `handleFileSelect`: a failure with the final error
string, or a success with the upload response body and, when the preview
response was ok, its body. -/
inductive UploadOutcome where
  | failure (errMsg : String)
  | success (data : UploadResponse) (previewBody : Option PreviewData)

/-- `handleFileSelect` (App.tsx lines 52-95) as a state transition; the
boolean reports whether the upload request was issued.  No selected file
returns unchanged; a name not ending in `.pdf` (case-insensitively) only
sets the error; otherwise the upload runs, a success records the file id,
filename and message, clears the messages and, when the preview fetch
succeeded, replaces the preview data. -/
def handleFileSelect (s : AppState) (file : Option SelectedFile) (o : UploadOutcome) :
    AppState × Bool :=
  match file with
  | none => (s, false)
  | some f =>
    if !(isPdfName f.name) then
      ({ s with error := some "Please select a PDF file" }, false)
    else
      let s1 := { s with isUploading := true, error := none, uploadMessage := none }
      match o with
      | .failure e => ({ s1 with error := some e, isUploading := false }, true)
      | .success data pv =>
        ({ s1 with
            fileId := some data.file_id,
            filename := some data.filename,
            uploadMessage := some data.message,
            messages := [],
            previewData := match pv with | some p => some p | none => s1.previewData,
            isUploading := false }, true)

/-- The `New PDF` button's click handler (App.tsx lines 244-257): reset
the file id, filename, upload message, preview data and messages. -/
def resetNewPdf (s : AppState) : AppState :=
  { s with
      fileId := none
      filename := none
      uploadMessage := none
      previewData := none
      messages := [] }

/-! ## Concrete fixtures used by witnesses and counterexamples -/

/-- The sample dataset of the spec's testable-properties section (§8). -/
def sampleDataset : Dataset :=
  ⟨["region", "sales"],
   [[("region", .str "A"), ("sales", .int 10)],
    [("region", .str "A"), ("sales", .int 20)],
    [("region", .str "B"), ("sales", .int 5)]]⟩

/-- An empty artifact store. -/
def emptyArtifacts : ArtifactStore := ⟨[], 0⟩

/-- An execution state over the sample dataset. -/
def sampleExecState : ExecState := ⟨sampleDataset, emptyArtifacts, []⟩

/-- A server state holding the sample dataset under the file id `f1`. -/
def serverState0 : ServerState := ⟨[("f1", sampleDataset)], emptyArtifacts⟩

/-- A client state with a loaded file and the typed message `hi`. -/
def chatState0 : AppState :=
  ⟨some "f1", some "report.pdf", none, false, none, [], "hi", false, none⟩

-- Idempotence of first-occurrence deduplication.

theorem dedupByAux_mem_seen {α κ : Type} [DecidableEq κ] (key : α → κ)
    (seen : List κ) (l : List α) :
    ∀ r ∈ dedupByAux key seen l, key r ∉ seen := by
  induction l generalizing seen with
  | nil => intro r hr; simp [dedupByAux] at hr
  | cons a l ih =>
    intro r hr
    by_cases h : key a ∈ seen
    · rw [dedupByAux, if_pos h] at hr
      exact ih seen r hr
    · rw [dedupByAux, if_neg h] at hr
      rcases List.mem_cons.mp hr with rfl | hr
      · exact h
      · have := ih (key a :: seen) r hr
        intro hmem
        exact this (List.mem_cons_of_mem _ hmem)

theorem dedupByAux_idem {α κ : Type} [DecidableEq κ] (key : α → κ)
    (seen : List κ) (l : List α) :
    dedupByAux key seen (dedupByAux key seen l) = dedupByAux key seen l := by
  induction l generalizing seen with
  | nil => simp [dedupByAux]
  | cons a l ih =>
    by_cases h : key a ∈ seen
    · rw [dedupByAux, if_pos h]
      exact ih seen
    · rw [dedupByAux, if_neg h, dedupByAux, if_neg h, ih (key a :: seen)]

theorem dedupBy_idem {α κ : Type} [DecidableEq κ] (key : α → κ) (l : List α) :
    dedupBy key (dedupBy key l) = dedupBy key l :=
  dedupByAux_idem key [] l

/-- The contract of one chat turn: the success response is exactly the
three fields `response`, `files`, `action_log` computed from one Agent
Loop turn; every `files` entry is an object with exactly the fields
`file_id`, `filename`, `type`; every `action_log` entry is a text line;
and the client builds its assistant message from exactly these three
fields (defaulting `files`/`action_log` to empty lists when absent). -/
def ChatResponseContract (msgText fid : String) (oracle : List LLMReply)
    (st : ServerState) (d : Dataset) : Prop :=
  let r := runTurn oracle stepBudget ⟨d, st.artifacts, []⟩
  let files := (r.2.artifacts.items.drop st.artifacts.items.length).map fileInfoJson
  ∃ st',
    chat msgText fid oracle st =
      .ok ([("response", .str r.1), ("files", .arr files),
            ("action_log", .arr (r.2.actionLog.map .str))], st')
    ∧ (∀ j ∈ files, ∃ a : Artifact,
        j = .obj [("file_id", .str (toString a.id)), ("filename", .str a.filename),
                  ("type", .str a.mime)])
    ∧ (∀ j ∈ r.2.actionLog.map Json.str, ∃ line, j = .str line)
    ∧ (∀ s r0 f a, allWhitespace s.inputMessage = false → s.fileId ≠ none → s.isSending = false →
        (handleSendMessage s (.success r0 f a)).1.messages
          = s.messages ++ [(⟨.user, s.inputMessage, none, none⟩ : ChatMessage),
              ⟨.assistant, r0, some (f.getD []), some (a.getD [])⟩])

/-! ## Claim theorems -/

/-- C5: for every dataset D, applying dedupe with no column subset twice
gives the same dataset as applying it once:
`dedupe(dedupe(D)) == dedupe(D)`. -/
theorem dedupe_idempotent (d : Dataset) :
    (d.dedupe none).dedupe none = d.dedupe none := by
  simp [Dataset.dedupe, dedupBy_idem]

/-- C2 (counterexample): executing `inspect_data`, which carries no
arguments, appends the action-log line `Executing: inspect_data`, which is
not of the claimed form `Executing: \x7btool\x7d with args \x7bargs\x7d`
(that form would read `Executing: inspect_data with args \x7b\x7d`). -/
theorem execLine_form_counterexample :
    (execute ⟨"inspect_data", []⟩ sampleExecState).2.actionLog
        = ["Executing: inspect_data"]
      ∧ "Executing: inspect_data" ≠ specClaimedLine ⟨"inspect_data", []⟩ := by
  constructor
  · rfl
  · decide

/-- C2 (amended): every executed tool call appends exactly one line to the
action log, equal to `Executing: \x7btool\x7d with args \x7bargs\x7d` when
the call carries arguments and to `Executing: \x7btool\x7d` when it
carries none; no result summary is interleaved into the action log. -/
theorem execute_appends_one_log_line (c : ToolCall) (s : ExecState) :
    (execute c s).2.actionLog = s.actionLog ++ [execLine c]
    ∧ (c.args.isEmpty = false → execLine c = specClaimedLine c) := by
  constructor
  · unfold execute
    repeat' split
    all_goals rfl
  · intro h
    simp [execLine, specClaimedLine, h]

/-- C4: for every tool in the catalog and every argument mapping omitting
one of the tool's required arguments, execution yields a failed
`InvalidArguments` result; `execute` is a total function, so the failure
is a returned `ToolResult` and never escapes the Executor or the Agent
Loop. -/
theorem execute_missing_required (c : ToolCall) (s : ExecState) (sp : ToolSpec)
    (a : String) (hl : lookupTool c.tool = some sp) (ha : a ∈ sp.required)
    (hm : ∀ p ∈ c.args, p.1 ≠ a) :
    (execute c s).1.success = false
    ∧ (execute c s).1.failKind = some FailKind.InvalidArguments := by
  have hpres : argPresent c.args a = false := by
    simp only [argPresent, List.any_eq_false]
    intro p hp
    simpa using hm p hp
  have hsome : (missingRequired sp c.args).isSome := by
    rw [missingRequired, List.find?_isSome]
    exact ⟨a, ha, by simp [hpres]⟩
  obtain ⟨b, hb⟩ := Option.isSome_iff_exists.mp hsome
  have hval : validateArgs sp c.args = some b := by
    simp [validateArgs, hb]
  simp [execute, hl, hval, ToolResult.fail]

/-- C4 (witness): calling `detect_outliers` with an empty argument mapping
omits its required `column` argument and yields a failed
`InvalidArguments` result. -/
theorem execute_missing_required_witness :
    (execute ⟨"detect_outliers", []⟩ sampleExecState).1.success = false
    ∧ (execute ⟨"detect_outliers", []⟩ sampleExecState).1.failKind
        = some FailKind.InvalidArguments :=
  execute_missing_required ⟨"detect_outliers", []⟩ sampleExecState
    ⟨"detect_outliers", ["column"], "Flag outliers in a numeric column by the IQR rule"⟩
    "column" rfl (by simp) (by simp)

/-- C6: in a well-formed artifact store, creating an artifact assigns an
identifier not already in use, leaves every previously created artifact
retrievable unchanged (so artifacts are never overwritten, and their
content, filename and media type never change), a repeated create — even
with an identical filename — yields a distinct new identifier, the first
created artifact survives the second create intact, and no tool execution
(hence no dataset operation) ever removes an artifact: execution only
appends to the artifact list. -/
theorem artifact_immutability (st : ArtifactStore)
    (fn mime content fn2 mime2 content2 : String) (hwf : st.WF) :
    st.get (st.create fn mime content).1 = none
    ∧ (∀ i a, st.get i = some a → (st.create fn mime content).2.get i = some a)
    ∧ (st.create fn mime content).1
        ≠ ((st.create fn mime content).2.create fn2 mime2 content2).1
    ∧ ((st.create fn mime content).2.create fn2 mime2 content2).2.get
        (st.create fn mime content).1 = some ⟨st.nextId, fn, mime, content⟩
    ∧ (∀ c s, ∃ t, (execute c s).2.artifacts.items = s.artifacts.items ++ t) := by
  have hnone : st.items.find? (fun x => x.id == st.nextId) = none := by
    rw [List.find?_eq_none]
    intro a ha
    have := hwf a ha
    simp [Nat.ne_of_lt this]
  refine ⟨?_, ?_, ?_, ?_, ?_⟩
  · exact hnone
  · intro i a h
    unfold ArtifactStore.get at h ⊢
    unfold ArtifactStore.create
    rw [List.find?_append, h]
    rfl
  · simp [ArtifactStore.create]
  · unfold ArtifactStore.get ArtifactStore.create
    rw [List.find?_append, List.find?_append, hnone]
    simp
  · intro c s
    unfold execute
    repeat' split
    all_goals first
      | exact ⟨[], (List.append_nil _).symm⟩
      | exact ⟨_, rfl⟩

/-- C6 (witness): the artifact contract evaluated on the empty store with
two exports of the identical filename `data.csv`. -/
theorem artifact_immutability_witness :
    emptyArtifacts.get (emptyArtifacts.create "data.csv" "text/csv" "r1").1 = none
    ∧ (∀ i a, emptyArtifacts.get i = some a →
        (emptyArtifacts.create "data.csv" "text/csv" "r1").2.get i = some a)
    ∧ (emptyArtifacts.create "data.csv" "text/csv" "r1").1
        ≠ ((emptyArtifacts.create "data.csv" "text/csv" "r1").2.create
            "data.csv" "text/csv" "r2").1
    ∧ ((emptyArtifacts.create "data.csv" "text/csv" "r1").2.create
        "data.csv" "text/csv" "r2").2.get
        (emptyArtifacts.create "data.csv" "text/csv" "r1").1
        = some ⟨emptyArtifacts.nextId, "data.csv", "text/csv", "r1"⟩
    ∧ (∀ c s, ∃ t, (execute c s).2.artifacts.items = s.artifacts.items ++ t) :=
  artifact_immutability emptyArtifacts "data.csv" "text/csv" "r1" "data.csv" "text/csv" "r2"
    (by intro a ha; simp [emptyArtifacts] at ha)

/-- C3 (counterexample): a successful upload response carries the four
fields `file_id`, `filename`, `csv_path`, `message` — the `csv_path`
field, documented in the README and declared in the client's
`UploadResponse` interface, falsifies "exactly the three fields". -/
theorem upload_three_fields_counterexample :
    ∃ fields st',
      upload "report.pdf" (.ok sampleDataset) "id1" serverState0 = .ok (fields, st')
      ∧ fields.map Prod.fst = ["file_id", "filename", "csv_path", "message"]
      ∧ fields.map Prod.fst ≠ ["file_id", "filename", "message"] :=
  ⟨_, _, rfl, rfl, by decide⟩

/-- C3 (amended): a successful upload of raw PDF bytes stores the
extracted dataset under the new file id (leaving all previously stored
datasets retrievable unchanged) and returns exactly the four fields
`file_id`, `filename`, `csv_path`, `message`, with `file_id` naming the
new id. -/
theorem upload_contract (filename newId : String) (d : Dataset) (st : ServerState)
    (hfresh : lookupDataset newId st = none) :
    ∃ fields st',
      upload filename (.ok d) newId st = .ok (fields, st')
      ∧ fields.map Prod.fst = ["file_id", "filename", "csv_path", "message"]
      ∧ lookupArg fields "file_id" = some (.str newId)
      ∧ lookupDataset newId st' = some d
      ∧ (∀ fid d0, lookupDataset fid st = some d0 → lookupDataset fid st' = some d0) := by
  refine ⟨_, _, rfl, rfl, rfl, ?_, ?_⟩
  · have hnone : st.datasets.find? (fun p => p.1 == newId) = none := by
      rw [lookupDataset, Option.map_eq_none'] at hfresh
      exact hfresh
    rw [lookupDataset]
    show ((st.datasets ++ [(newId, d)]).find? (fun p => p.1 == newId)).map (·.2) = some d
    rw [List.find?_append, hnone]
    simp
  · intro fid d0 h
    rw [lookupDataset, Option.map_eq_some'] at h
    obtain ⟨p, hp, hpd⟩ := h
    rw [lookupDataset]
    show ((st.datasets ++ [(newId, d)]).find? (fun q => q.1 == fid)).map (·.2) = some d0
    rw [List.find?_append, hp]
    simp [hpd]

/-- C3 (witness): uploading the sample dataset under the fresh id `id9`
against the sample server state. -/
theorem upload_contract_witness :
    ∃ fields st',
      upload "report.pdf" (.ok sampleDataset) "id9" serverState0 = .ok (fields, st')
      ∧ fields.map Prod.fst = ["file_id", "filename", "csv_path", "message"]
      ∧ lookupArg fields "file_id" = some (.str "id9")
      ∧ lookupDataset "id9" st' = some sampleDataset
      ∧ (∀ fid d0, lookupDataset fid serverState0 = some d0 →
          lookupDataset fid st' = some d0) :=
  upload_contract "report.pdf" "id9" sampleDataset serverState0 rfl

/-- C1: for every chat request against a known file id, the chat boundary
runs one Agent Loop turn and answers with exactly the fields `response`
(text), `files` (objects carrying exactly `file_id`, `filename`, `type`)
and `action_log` (text lines); the client consumes precisely these three
fields when building the assistant message. -/
theorem chat_response_contract (msgText fid : String) (oracle : List LLMReply)
    (st : ServerState) (d : Dataset) (h : lookupDataset fid st = some d) :
    ChatResponseContract msgText fid oracle st d := by
  unfold ChatResponseContract chat
  rw [h]
  refine ⟨_, rfl, ?_, ?_, ?_⟩
  · intro j hj
    rw [List.mem_map] at hj
    obtain ⟨a, _, rfl⟩ := hj
    exact ⟨a, rfl⟩
  · intro j hj
    rw [List.mem_map] at hj
    obtain ⟨line, _, rfl⟩ := hj
    exact ⟨line, rfl⟩
  · intro s r0 f a h1 h2 h3
    unfold handleSendMessage
    rw [if_neg (by simp [h1, h2, h3])]
    simp

/-- C1 (witness): the chat contract at the sample server state, file id
`f1` and an oracle answering immediately with the final text `hi`. -/
theorem chat_response_contract_witness :
    ChatResponseContract "summarize" "f1" [.final "hi"] serverState0 sampleDataset :=
  chat_response_contract "summarize" "f1" [.final "hi"] serverState0 sampleDataset rfl

/-- C7: preview of a known file id answers with exactly the fields
`columns`, `rows` (the first 10 rows), `total_rows` and `total_columns`;
an unknown file id fails with `NotFound`; and the client stores the
preview body — exactly these four fields — as its preview data after a
successful upload whose preview fetch succeeded. -/
theorem preview_contract (fid : String) (st : ServerState) (d : Dataset) :
    (lookupDataset fid st = some d →
      ∃ fields, preview fid st = .ok fields
        ∧ fields.map Prod.fst = ["columns", "rows", "total_rows", "total_columns"]
        ∧ lookupArg fields "columns" = some (.arr (d.columns.map .str))
        ∧ lookupArg fields "rows" = some (.arr ((d.rows.take 10).map rowToJson))
        ∧ lookupArg fields "total_rows" = some (.int d.rows.length)
        ∧ lookupArg fields "total_columns" = some (.int d.columns.length))
    ∧ (lookupDataset fid st = none → preview fid st = .error .NotFound)
    ∧ (∀ s f data pv, isPdfName f.name = true →
        (handleFileSelect s (some f) (.success data (some pv))).1.previewData = some pv) := by
  refine ⟨?_, ?_, ?_⟩
  · intro h
    unfold preview
    rw [h]
    exact ⟨_, rfl, rfl, rfl, rfl, rfl, rfl⟩
  · intro h
    unfold preview
    rw [h]
  · intro s f data pv hpdf
    simp only [handleFileSelect, hpdf]
    rfl

/-- C7 (witness): the preview contract evaluated at the sample server
state (`f1` known, `zz` unknown) and at a client state accepting
`report.pdf` with a preview body. -/
theorem preview_contract_witness :
    (∃ fields, preview "f1" serverState0 = .ok fields
      ∧ fields.map Prod.fst = ["columns", "rows", "total_rows", "total_columns"]
      ∧ lookupArg fields "columns" = some (.arr (sampleDataset.columns.map .str))
      ∧ lookupArg fields "rows" = some (.arr ((sampleDataset.rows.take 10).map rowToJson))
      ∧ lookupArg fields "total_rows" = some (.int sampleDataset.rows.length)
      ∧ lookupArg fields "total_columns" = some (.int sampleDataset.columns.length))
    ∧ preview "zz" serverState0 = .error .NotFound
    ∧ (handleFileSelect chatState0 (some ⟨"report.pdf"⟩)
        (.success ⟨"id1", "report.pdf", "id1.csv", "ok"⟩ (some ⟨["region"], [], 3, 2⟩))).1.previewData
        = some ⟨["region"], [], 3, 2⟩ :=
  ⟨(preview_contract "f1" serverState0 sampleDataset).1 rfl,
   (preview_contract "zz" serverState0 sampleDataset).2.1 rfl,
   (preview_contract "zz" serverState0 sampleDataset).2.2 chatState0 ⟨"report.pdf"⟩
     ⟨"id1", "report.pdf", "id1.csv", "ok"⟩ ⟨["region"], [], 3, 2⟩ rfl⟩

/-- C8 (counterexample): on a failed chat request the claim allows only
the message list to grow and the error to be set, leaving all other state
— in particular the typed input — unchanged; but `handleSendMessage` also
clears the input box (`setInputMessage(\x27\x27)`, App.tsx line 106): from
the state typing `hi`, the reached state has an empty input, so it differs
from the claimed state. -/
theorem sendMessage_frame_counterexample :
    (handleSendMessage chatState0 (.failure "boom")).1.inputMessage
      ≠ ({ chatState0 with
            messages := chatState0.messages ++ [(⟨.user, "hi", none, none⟩ : ChatMessage)]
            error := some "boom" } : AppState).inputMessage := by
  decide

/-- C8 (amended): `handleSendMessage` is a no-op (no request, no state
change) when the input is empty or whitespace, no file is loaded, or a
send is in flight; on a failed chat request the message list grows by
exactly one (the user's message), the error is set and the typed input is
cleared; on a successful request it grows by exactly two (user then
assistant message, in that order), the assistant's `files` and
`action_log` defaulting to empty lists when absent, with the input
likewise cleared. -/
theorem sendMessage_contract (s : AppState) (e r : String)
    (f : Option (List FileInfo)) (a : Option (List String)) :
    (∀ o, (allWhitespace s.inputMessage = true ∨ s.fileId = none ∨ s.isSending = true) →
        handleSendMessage s o = (s, false))
    ∧ (allWhitespace s.inputMessage = false → s.fileId ≠ none → s.isSending = false →
        handleSendMessage s (.failure e)
          = ({ s with
                messages := s.messages ++ [(⟨.user, s.inputMessage, none, none⟩ : ChatMessage)]
                inputMessage := ""
                isSending := false
                error := some e }, true)
        ∧ handleSendMessage s (.success r f a)
          = ({ s with
                messages := s.messages ++ [(⟨.user, s.inputMessage, none, none⟩ : ChatMessage),
                  ⟨.assistant, r, some (f.getD []), some (a.getD [])⟩]
                inputMessage := ""
                isSending := false
                error := none }, true)) := by
  constructor
  · intro o ho
    unfold handleSendMessage
    rw [if_pos ho]
  · intro h1 h2 h3
    constructor
    · unfold handleSendMessage
      rw [if_neg (by simp [h1, h2, h3])]
    · unfold handleSendMessage
      rw [if_neg (by simp [h1, h2, h3])]
      simp

/-- C8 (witness): the three clauses evaluated concretely — a send in
flight blocks, a failure appends the user message and sets the error, a
success appends user and assistant messages with defaulted fields. -/
theorem sendMessage_contract_witness :
    handleSendMessage { chatState0 with isSending := true } (.failure "x")
      = ({ chatState0 with isSending := true }, false)
    ∧ handleSendMessage chatState0 (.failure "boom")
      = ({ chatState0 with
            messages := [(⟨.user, "hi", none, none⟩ : ChatMessage)]
            inputMessage := ""
            isSending := false
            error := some "boom" }, true)
    ∧ handleSendMessage chatState0 (.success "done" none none)
      = ({ chatState0 with
            messages := [(⟨.user, "hi", none, none⟩ : ChatMessage),
              ⟨.assistant, "done", some [], some []⟩]
            inputMessage := ""
            isSending := false
            error := none }, true) :=
  ⟨(sendMessage_contract { chatState0 with isSending := true } "x" "r" none none).1 _
      (Or.inr (Or.inr rfl)),
   ((sendMessage_contract chatState0 "boom" "done" none none).2
      (by decide) (by decide) rfl).1,
   ((sendMessage_contract chatState0 "boom" "done" none none).2
      (by decide) (by decide) rfl).2⟩

/-- C9: when the selected file's name does not end in `.pdf`
(case-insensitively), `handleFileSelect` only sets the error message and
issues no upload request — fileId, filename, previewData and messages are
unchanged; and an upload request is issued only when the filename guard
passes. -/
theorem fileSelect_guard (s : AppState) (f : SelectedFile) (o : UploadOutcome)
    (h : isPdfName f.name = false) :
    handleFileSelect s (some f) o
      = ({ s with error := some "Please select a PDF file" }, false)
    ∧ (handleFileSelect s (some f) o).1.fileId = s.fileId
    ∧ (handleFileSelect s (some f) o).1.filename = s.filename
    ∧ (handleFileSelect s (some f) o).1.previewData = s.previewData
    ∧ (handleFileSelect s (some f) o).1.messages = s.messages
    ∧ (∀ file o', (handleFileSelect s file o').2 = true →
        ∃ g, file = some g ∧ isPdfName g.name = true) := by
  have hmain : handleFileSelect s (some f) o
      = ({ s with error := some "Please select a PDF file" }, false) := by
    simp only [handleFileSelect, h]
    rfl
  refine ⟨hmain, by rw [hmain], by rw [hmain], by rw [hmain], by rw [hmain], ?_⟩
  intro file o' hsent
  match file with
  | none => simp [handleFileSelect] at hsent
  | some g =>
    cases hg : isPdfName g.name with
    | true => exact ⟨g, rfl, hg⟩
    | false => simp [handleFileSelect, hg] at hsent

/-- C9 (witness): selecting `data.txt` only sets the error and sends
nothing. -/
theorem fileSelect_guard_witness :
    handleFileSelect chatState0 (some ⟨"data.txt"⟩) (.failure "x")
      = ({ chatState0 with error := some "Please select a PDF file" }, false)
    ∧ (handleFileSelect chatState0 (some ⟨"data.txt"⟩) (.failure "x")).1.fileId
        = chatState0.fileId
    ∧ (handleFileSelect chatState0 (some ⟨"data.txt"⟩) (.failure "x")).1.filename
        = chatState0.filename
    ∧ (handleFileSelect chatState0 (some ⟨"data.txt"⟩) (.failure "x")).1.previewData
        = chatState0.previewData
    ∧ (handleFileSelect chatState0 (some ⟨"data.txt"⟩) (.failure "x")).1.messages
        = chatState0.messages
    ∧ (∀ file o', (handleFileSelect chatState0 file o').2 = true →
        ∃ g, file = some g ∧ isPdfName g.name = true) :=
  fileSelect_guard chatState0 ⟨"data.txt"⟩ (.failure "x") (by decide)

/-- C10: a successful upload always clears the chat message list, and the
`New PDF` reset sets exactly fileId, filename, uploadMessage, previewData
and messages back to their initial values, leaving the error state, the
typed input and the two in-flight flags unchanged. -/
theorem upload_reset_contract (s : AppState) (f : SelectedFile) (data : UploadResponse)
    (pv : Option PreviewData) (h : isPdfName f.name = true) :
    (handleFileSelect s (some f) (.success data pv)).1.messages = []
    ∧ resetNewPdf s = { s with
        fileId := initialAppState.fileId
        filename := initialAppState.filename
        uploadMessage := initialAppState.uploadMessage
        previewData := initialAppState.previewData
        messages := initialAppState.messages }
    ∧ (resetNewPdf s).error = s.error
    ∧ (resetNewPdf s).inputMessage = s.inputMessage
    ∧ (resetNewPdf s).isUploading = s.isUploading
    ∧ (resetNewPdf s).isSending = s.isSending := by
  refine ⟨?_, rfl, rfl, rfl, rfl, rfl⟩
  simp only [handleFileSelect, h]
  rfl

/-- C10 (witness): the upload/reset contract evaluated at the sample
client state with a successful upload of `report.pdf`. -/
theorem upload_reset_contract_witness :
    (handleFileSelect chatState0 (some ⟨"report.pdf"⟩)
        (.success ⟨"id1", "report.pdf", "id1.csv", "ok"⟩ none)).1.messages = []
    ∧ resetNewPdf chatState0 = { chatState0 with
        fileId := initialAppState.fileId
        filename := initialAppState.filename
        uploadMessage := initialAppState.uploadMessage
        previewData := initialAppState.previewData
        messages := initialAppState.messages }
    ∧ (resetNewPdf chatState0).error = chatState0.error
    ∧ (resetNewPdf chatState0).inputMessage = chatState0.inputMessage
    ∧ (resetNewPdf chatState0).isUploading = chatState0.isUploading
    ∧ (resetNewPdf chatState0).isSending = chatState0.isSending :=
  upload_reset_contract chatState0 ⟨"report.pdf"⟩ ⟨"id1", "report.pdf", "id1.csv", "ok"⟩
    none (by decide)

/-- C2 (amended, witness): a `clean_data` call carrying arguments appends
exactly one log line, and that line has the spec's `with args` form. -/
theorem execute_appends_one_log_line_witness :
    (execute ⟨"clean_data", [("operations", .arr [.str "drop_duplicates"])]⟩
        sampleExecState).2.actionLog
      = sampleExecState.actionLog
        ++ [execLine ⟨"clean_data", [("operations", .arr [.str "drop_duplicates"])]⟩]
    ∧ ((⟨"clean_data", [("operations", .arr [.str "drop_duplicates"])]⟩ : ToolCall).args.isEmpty
          = false →
        execLine ⟨"clean_data", [("operations", .arr [.str "drop_duplicates"])]⟩
          = specClaimedLine ⟨"clean_data", [("operations", .arr [.str "drop_duplicates"])]⟩) :=
  execute_appends_one_log_line
    ⟨"clean_data", [("operations", .arr [.str "drop_duplicates"])]⟩ sampleExecState
